import Mathlib

/-!
Verification of the command-protocol layer of the smaract repository
(src/smaract/controller.py), shallowly embedded in Lean.

The Python code is embedded as follows:
* strings are Lean `String`s; `s[i]` is modelled by `List.get?` on `s.data`
  with an `indexError` on out-of-range access, `s[i:]` by `List.drop`
  (Python slices never raise);
* fallible Python code returns `Except PyExc α`, where `PyExc` mirrors the
  exception classes the code can raise (`IndexError`, `ValueError`,
  `KeyError`, `RuntimeError`); in the design-spec taxonomy the `RuntimeError`
  raised by `send_cmd` is the ProtocolError, the `KeyError` escaping the
  `ERROR_CODES` lookup is the UnknownProtocolError, the `ValueError` of the
  constructor is the ConstructionError and the `ValueError` of the range
  validators is the ValidationError;
* the dictionaries defined at class level become functions into `Option`;
* the transport capability `self.com.send_cmd` becomes an explicit
  function argument `transport : String → String` (reply oracle);
* methods that issue commands return, besides their `Except` result, the
  list of command strings actually handed to the transport, so that
  "fails before any command reaches the transport" is expressible.
-/

/-- Python exceptions that the embedded code can raise.  `keyError` carries
the offending key (always the integer error code here), `valueError` and
`runtimeError` carry the message they were constructed with. -/
inductive PyExc where
  | indexError : PyExc
  | valueError : String → PyExc
  | keyError : Int → PyExc
  | runtimeError : String → PyExc
  | typeError : String → PyExc
deriving Repr, DecidableEq

deriving instance DecidableEq for Except

/-- Python whitespace stripped by `int()` before parsing. -/
def isPySpace (c : Char) : Bool :=
  c = ' ' || c = '\t' || c = '\n' || c = '\r' || c = '\x0b' || c = '\x0c'

/-- Strip leading and trailing Python whitespace. -/
def stripWs (l : List Char) : List Char :=
  ((l.dropWhile isPySpace).reverse.dropWhile isPySpace).reverse

/-- A non-empty run of ASCII decimal digits. -/
def digitsOnly (ds : List Char) : Bool :=
  !ds.isEmpty && ds.all (·.isDigit)

/-- Value of a run of ASCII decimal digits. -/
def digitsVal (ds : List Char) : Nat :=
  ds.foldl (fun n c => 10 * n + (c.toNat - 48)) 0

/-- Sign-and-digits core of Python `int(str)`. -/
def pyIntCore : List Char → Option Int
  | '-' :: ds => if digitsOnly ds then some (-(digitsVal ds : Int)) else none
  | '+' :: ds => if digitsOnly ds then some (digitsVal ds) else none
  | ds => if digitsOnly ds then some (digitsVal ds) else none

/-- Python `int(s)`: strips surrounding whitespace, accepts an optional sign
followed by decimal digits, raises `ValueError` otherwise.  (Underscore digit
separators and non-ASCII digits, which CPython also accepts, are treated as
`ValueError`; no reply handled by this layer contains them.) -/
def pyInt (s : String) : Except PyExc Int :=
  match pyIntCore (stripWs s.data) with
  | some n => .ok n
  | none => .error (.valueError ("invalid literal for int() with base 10: " ++ s))

/-- Split a character list at its LAST comma: `some (before, after)` when a
comma occurs, `none` otherwise.  This is the splitting done by Python's
`s.rsplit(',', 1)` when it returns a two-element list. -/
def rsplitLast? : List Char → Option (List Char × List Char)
  | [] => none
  | c :: rest =>
    match rsplitLast? rest with
    | some (a, b) => some (c :: a, b)
    | none => if c = ',' then some ([], rest) else none

/-- Python `s.rsplit(',', 1)[1]`: the text after the last comma; indexing a
one-element result (no comma in `s`) raises `IndexError`. -/
def rsplitComma1Get1 (s : String) : Except PyExc String :=
  match rsplitLast? s.data with
  | some (_, b) => .ok (String.mk b)
  | none => .error .indexError

/-- Python `s[n:]`: drop the first `n` characters, never raising. -/
def pySliceFrom (s : String) (n : Nat) : String :=
  String.mk (s.data.drop n)

/-- The class-level `ERROR_CODES` dictionary of `SmaractBaseController`
(src/smaract/controller.py lines 16-43); `none` models a missing key. -/
def ERROR_CODES : Int → Option String
  | 0 => some "No Error"
  | 1 => some "Syntax Error"
  | 2 => some "Invalid Command Error"
  | 3 => some "Overflow Error"
  | 4 => some "Parse Error"
  | 5 => some "Too Few Parameters Error"
  | 6 => some "Too Many Parameters Error"
  | 7 => some "Invalid Parameter Error"
  | 8 => some "Wrong Mode Error"
  | 129 => some "No Sensor Present Error"
  | 140 => some "Sensor Disabled Error"
  | 141 => some "Command Overridden Error"
  | 142 => some "End Stop Reached Error"
  | 143 => some "Wrong Sensor Type Error"
  | 144 => some "Could Not Find Reference Mark Error"
  | 145 => some "Wrong End Effector Type Error"
  | 146 => some "Movement Locked Error"
  | 147 => some "Range Limit Reached Error"
  | 148 => some "Physical Position Unknown Error"
  | 150 => some "Command Not Processable Error"
  | 151 => some "Waiting For Trigger Error"
  | 152 => some "Command Not Triggerable Error"
  | 153 => some "Command Queue Full Error"
  | 154 => some "Invalid Component Error"
  | 155 => some "Invalid Sub Component Error"
  | 156 => some "Invalid Property Error"
  | 157 => some "Permission Denied Error"
  | 159 => some "Power Amplifier Disabled Error"
  | _ => none

/-- The reply-decoding part of `SmaractBaseController.send_cmd`
(src/smaract/controller.py lines 101-118), as a function of the raw reply
`ans` returned by the transport:

    flg_error = ans[0] == 'E' and ans[1] != 'S'
    if flg_error:
        error_code = int(ans.rsplit(',', 1)[1])
        if error_code != 0:
            error_msg = ('Error %d: %s' % (error_code, self.ERROR_CODES[error_code]))
            raise RuntimeError(error_msg)
    return ans

Every exception the Python can raise is made explicit: `ans[1]` on a
one-character reply and `rsplit` yielding a single field raise `IndexError`,
a non-integer last field raises `ValueError` inside `int`, a code absent
from `ERROR_CODES` raises `KeyError` while the message is being formatted
(before the `RuntimeError` is ever constructed). -/
def send_cmd (ans : String) : Except PyExc String :=
  match ans.data[0]? with
  | none => .error .indexError
  | some c0 =>
    if c0 = 'E' then
      match ans.data[1]? with
      | none => .error .indexError
      | some c1 =>
        if c1 ≠ 'S' then
          match rsplitComma1Get1 ans with
          | .error e => .error e
          | .ok lastField =>
            match pyInt lastField with
            | .error e => .error e
            | .ok code =>
              if code ≠ 0 then
                match ERROR_CODES code with
                | some msg =>
                  .error (.runtimeError ("Error " ++ toString code ++ ": " ++ msg))
                | none => .error (.keyError code)
              else .ok ans
        else .ok ans
    else .ok ans

/-- An axis object as observed by the constructor: `tag` stands for the
Python object identity of the axis created externally by the caller,
`attr_id` for its `_id` attribute (`none` while never assigned) and
`attr_parent` for the controller identity that its `_parent` weak
reference resolves to (`none` while never assigned). -/
structure AxisObj where
  tag : Nat
  attr_id : Option Nat
  attr_parent : Option Nat
deriving Repr, DecidableEq

/-- An element of the sequence handed to the constructor: either an instance
of `SmaractBaseAxis` (or a derived class) or any other object, which fails
the `isinstance` check. -/
inductive Elem where
  | axis (a : AxisObj)
  | nonAxis (tag : Nat)
deriving Repr, DecidableEq

/-- Python `isinstance(x, SmaractBaseAxis)` on an element. -/
def isAxisInstance : Elem → Bool
  | .axis _ => true
  | .nonAxis _ => false

/-- The state a `SmaractBaseController` reaches when its constructor
returns: `cid` is the object identity of the controller (the target of the
weak references handed to the axes) and `items` the contents of the
inherited `list`, in `append` order. -/
structure Controller where
  cid : Nat
  items : List AxisObj
deriving Repr, DecidableEq

/-- One iteration of the constructor loop: `a._id = i` and
`a._parent = weakref.ref(self)` (src/smaract/controller.py lines 97-98). -/
def assignAxis (cid : Nat) (i : Nat) (a : AxisObj) : AxisObj :=
  { a with attr_id := some i, attr_parent := some cid }

/-- The loop `for i, a in enumerate(axes): a._id = i;
a._parent = weakref.ref(self); self.append(a)` (src/smaract/controller.py
lines 96-99), started at counter `i`.  The loop only runs after every
element passed the `isinstance` check, so the `nonAxis` case is
unreachable there; it skips, mirroring that no axis is appended for it. -/
def assignLoop (cid : Nat) (i : Nat) : List Elem → List AxisObj
  | [] => []
  | .axis a :: rest => assignAxis cid i a :: assignLoop cid (i + 1) rest
  | .nonAxis _ :: rest => assignLoop cid (i + 1) rest

/-- `SmaractBaseController.__init__` (src/smaract/controller.py lines
81-99) on a `list` argument (the `type(axes) is not list` conversion does
not fire).  The first component of the result is the post-state of the
elements of the supplied sequence — when the `isinstance` check fails the
`ValueError` is raised before the loop, so the elements are returned
exactly as supplied, with no `_id` or `_parent` assignment; the second
component is the constructed controller or the exception. -/
def controller_init_list (cid : Nat) (axes : List Elem) :
    List Elem × Except PyExc Controller :=
  if axes.all isAxisInstance then
    let upd := assignLoop cid 0 axes
    (upd.map Elem.axis, .ok { cid := cid, items := upd })
  else
    (axes, .error (.valueError "Not all elements supplied are valid axis"))

/-- Modelled from the spec: the class `SmaractBaseAxis` lives in
src/smaract/axis.py, which is not among the sources, so what
`list(axes)` does to a single axis object cannot be read off the code.
The spec states that construction "accepts a sequence of already-constructed
Axis objects (or a single Axis)", so the conversion of a single Axis is
modelled as producing the one-element list containing it. -/
def listOfSingleAxis (a : AxisObj) : List Elem :=
  [Elem.axis a]

/-- `SmaractBaseController.__init__` on a single axis object: the argument
is not a `list`, so it is first converted by `list(axes)` (modelled by
`listOfSingleAxis`), then handled as in the list case. -/
def controller_init_single (cid : Nat) (a : AxisObj) :
    List Elem × Except PyExc Controller :=
  controller_init_list cid (listOfSingleAxis a)

/-- Modelled from the spec: `TRIGGER_INDEX_0` is imported from
src/smaract/constants.py, which is not among the sources; the spec states
that `trigger_command` issues `"TC" + (trigger_idx + 1792)`, mapping the
256 logical trigger indices onto the code range [1792, 2047]. -/
def TRIGGER_INDEX_0 : Int := 1792

/-- Modelled from the spec: `is_trigger_in_range` is imported from
src/smaract/constants.py, which is not among the sources; the spec states
it is a pure validation helper that fails with a ValidationError (a
`ValueError`, including the offending value and the accepted domain) iff
the trigger index lies outside the closed interval [0, 255]. -/
def is_trigger_in_range (value : Int) : Except PyExc Unit :=
  if 0 ≤ value ∧ value ≤ 255 then .ok ()
  else .error (.valueError ("Trigger index " ++ toString value ++
    " out of the accepted range [0, 255]"))

/-- Modelled from the spec: the accepted discrete RS-232 baud-rate set used
by `is_baudrate_in_range` lives in src/smaract/constants.py, which is not
among the sources; the spec only states it is "a fixed discrete accepted
set defined by the RS-232 interface specification", modelled here as the
standard RS-232 rates. -/
def BAUDRATES : List Int :=
  [9600, 19200, 38400, 57600, 115200]

/-- Modelled from the spec: `is_baudrate_in_range` is imported from
src/smaract/constants.py, which is not among the sources; the spec states
it is a pure validation helper that fails with a ValidationError (a
`ValueError`, including the offending value and the accepted domain) iff
the baud rate is outside the accepted discrete set. -/
def is_baudrate_in_range (value : Int) : Except PyExc Unit :=
  if value ∈ BAUDRATES then .ok ()
  else .error (.valueError ("Baudrate " ++ toString value ++
    " outside the accepted RS-232 set"))

/-- `SmaractMCSController.trigger_command` (src/smaract/controller.py lines
245-257) for an integer argument (so the `int(trigger_idx)` conversion is
the identity):

    is_trigger_in_range(int(trigger_idx))
    cmd = 'TC%d' % (trigger_idx + TRIGGER_INDEX_0)
    self.send_cmd(cmd)

The transport is the reply oracle `transport`; the first component of the
result collects the command strings actually handed to it. -/
def trigger_command (transport : String → String) (trigger_idx : Int) :
    List String × Except PyExc Unit :=
  match is_trigger_in_range trigger_idx with
  | .error e => ([], .error e)
  | .ok _ =>
    let cmd := "TC" ++ toString (trigger_idx + TRIGGER_INDEX_0)
    ([cmd], (send_cmd (transport cmd)).map fun _ => ())

/-- `SmaractMCSController.configure_baudrate` (src/smaract/controller.py
lines 261-273):

    is_baudrate_in_range(baudrate)
    cmd = 'BR%d' % baudrate
    ans = self.send_cmd(cmd)
    return int(ans[2:])

The first component of the result collects the command strings actually
handed to the transport. -/
def configure_baudrate (transport : String → String) (baudrate : Int) :
    List String × Except PyExc Int :=
  match is_baudrate_in_range baudrate with
  | .error e => ([], .error e)
  | .ok _ =>
    let cmd := "BR" ++ toString baudrate
    ([cmd],
      match send_cmd (transport cmd) with
      | .error e => .error e
      | .ok ans => pyInt (pySliceFrom ans 2))

/-- Python `s.split(',')` on a character list: the comma-separated fields,
with empty fields preserved (`''.split(',') == ['']`). -/
def splitOnComma : List Char → List (List Char)
  | [] => [[]]
  | c :: rest =>
    let r := splitOnComma rest
    if c = ',' then [] :: r
    else
      match r with
      | [] => [[c]]
      | h :: t => (c :: h) :: t

/-- Python `sep.join(parts)` for a one-character separator. -/
def joinWith (sep : Char) : List (List Char) → List Char
  | [] => []
  | [p] => p
  | p :: ps => p ++ sep :: joinWith sep ps

/-- `SmaractBaseController.get_version` (src/smaract/controller.py lines
122-130):

    ans = self.send_cmd('GIV')
    return 'Version: %s' % '.'.join(ans[2:].split(','))
-/
def get_version (transport : String → String) : Except PyExc String :=
  match send_cmd (transport "GIV") with
  | .error e => .error e
  | .ok ans =>
    .ok ("Version: " ++ String.mk (joinWith '.' (splitOnComma (ans.data.drop 2))))

/-- The error-report condition exactly as the C1 claim words it: the
reply's first character is the error-frame marker 'E', its second character
exists and differs from the sentinel 'S', and its last comma-delimited
field parses to a non-zero integer. -/
def errorReplyCond (ans : String) : Prop :=
  ans.data[0]? = some 'E' ∧
  (∃ c1, ans.data[1]? = some c1 ∧ c1 ≠ 'S') ∧
  (∃ lf code, rsplitComma1Get1 ans = .ok lf ∧ pyInt lf = .ok code ∧ code ≠ 0)

/-- The replies on which every access performed by `send_cmd` is defined:
the reply is non-empty; if it starts with 'E' it has a second character;
and if that second character moreover differs from 'S', the reply contains
a comma and the text after its last comma parses as an integer. -/
def dispatchDefined (ans : String) : Bool :=
  match ans.data[0]? with
  | none => false
  | some c0 =>
    if c0 = 'E' then
      match ans.data[1]? with
      | none => false
      | some c1 =>
        if c1 = 'S' then true
        else
          match rsplitComma1Get1 ans with
          | .error _ => false
          | .ok lf =>
            match pyInt lf with
            | .error _ => false
            | .ok _ => true
    else true

/-- Splitting at the last comma finds nothing when there is no comma. -/
theorem rsplitLast?_eq_none (l : List Char) (h : ',' ∉ l) :
    rsplitLast? l = none := by
  induction l with
  | nil => rfl
  | cons c rest ih =>
    have hc : c ≠ ',' := fun hc => h (hc ▸ List.mem_cons_self c rest)
    have hrest : ',' ∉ rest := fun hm => h (List.mem_cons_of_mem c hm)
    simp [rsplitLast?, ih hrest, hc]

example : send_cmd "E0,0" = .ok "E0,0" := by decide
example : send_cmd "ESxyz" = .ok "ESxyz" := by decide
example : send_cmd "VV1,2,3" = .ok "VV1,2,3" := by decide
example : send_cmd "E0,142" =
    .error (.runtimeError "Error 142: End Stop Reached Error") := by decide
example : send_cmd "E0,999" = .error (.keyError 999) := by decide
example : send_cmd "E" = .error .indexError := by decide
example : send_cmd "EX" = .error .indexError := by decide
example : get_version (fun _ => "VV1,2,3") = .ok "Version: 1.2.3" := by decide
example : pyInt "142" = .ok 142 := by decide
example : pyInt "-7" = .ok (-7) := by decide
example : pyInt "" = .error (.valueError "invalid literal for int() with base 10: ") := by decide

/-- C3: for every error-flagged reply whose trailing comma-delimited field
parses to a non-zero integer code present in `ERROR_CODES`, `send_cmd`
raises the `RuntimeError` (the spec's ProtocolError) carrying that code and
the table's resolved message. -/
theorem sendCmd_known_code_protocolError
    (ans lf msg : String) (c1 : Char) (code : Int)
    (h0 : ans.data[0]? = some 'E')
    (h1 : ans.data[1]? = some c1) (hS : c1 ≠ 'S')
    (hr : rsplitComma1Get1 ans = .ok lf)
    (hp : pyInt lf = .ok code) (hc : code ≠ 0)
    (hm : ERROR_CODES code = some msg) :
    send_cmd ans =
      .error (.runtimeError ("Error " ++ toString code ++ ": " ++ msg)) := by
  simp [send_cmd, h0, h1, hS, hr, hp, hc, hm]

/-- C3 witness: reply "E0,142" raises with code 142 and message
"End Stop Reached Error". -/
theorem sendCmd_known_code_protocolError_at142 :
    send_cmd "E0,142" =
      .error (.runtimeError "Error 142: End Stop Reached Error") :=
  sendCmd_known_code_protocolError "E0,142" "142" "End Stop Reached Error"
    '0' 142 rfl rfl (by decide) (by decide) (by decide) (by decide) (by decide)

/-- C2: for every error-flagged reply whose trailing comma-delimited field
parses to a non-zero integer code absent from `ERROR_CODES`, `send_cmd`
raises the `KeyError` (the spec's UnknownProtocolError) carrying the raw
code — a constructor distinct from the `RuntimeError` of a known code, so
the caller can tell the two apart. -/
theorem sendCmd_unknown_code_keyError
    (ans lf : String) (c1 : Char) (code : Int)
    (h0 : ans.data[0]? = some 'E')
    (h1 : ans.data[1]? = some c1) (hS : c1 ≠ 'S')
    (hr : rsplitComma1Get1 ans = .ok lf)
    (hp : pyInt lf = .ok code) (hc : code ≠ 0)
    (hm : ERROR_CODES code = none) :
    send_cmd ans = .error (.keyError code) ∧
      ∀ m, PyExc.keyError code ≠ PyExc.runtimeError m := by
  constructor
  · simp [send_cmd, h0, h1, hS, hr, hp, hc, hm]
  · intro m h
    exact PyExc.noConfusion h

/-- C2 witness: reply "E0,999" (999 is not in the table) raises the
`KeyError` carrying 999. -/
theorem sendCmd_unknown_code_keyError_at999 :
    send_cmd "E0,999" = .error (.keyError 999) :=
  (sendCmd_unknown_code_keyError "E0,999" "999" '0' 999 rfl rfl
    (by decide) (by decide) (by decide) (by decide) (by decide)).1

/-- C10: the error branch of `send_cmd` is partial — a reply that is just
"E" fails reading the second character out of range, and a reply starting
with 'E' whose second character is not 'S' but which contains no comma
fails extracting the trailing comma-delimited field; both surface as the
`IndexError`, not as any protocol error, so the branch implicitly requires
a second character and at least one comma. -/
theorem sendCmd_error_branch_incomplete (ans : String)
    (h0 : ans.data[0]? = some 'E') :
    (ans.data[1]? = none → send_cmd ans = .error .indexError) ∧
    (∀ c1, ans.data[1]? = some c1 → c1 ≠ 'S' → ',' ∉ ans.data →
      send_cmd ans = .error .indexError) := by
  constructor
  · intro h1
    simp [send_cmd, h0, h1]
  · intro c1 h1 hS hcomma
    have hr : rsplitComma1Get1 ans = .error .indexError := by
      simp [rsplitComma1Get1, rsplitLast?_eq_none ans.data hcomma]
    simp [send_cmd, h0, h1, hS, hr]

/-- C10 witness: reply "E" and reply "EX" both fail with the IndexError. -/
theorem sendCmd_error_branch_incomplete_at :
    send_cmd "E" = .error .indexError ∧ send_cmd "EX" = .error .indexError :=
  ⟨(sendCmd_error_branch_incomplete "E" rfl).1 rfl,
   (sendCmd_error_branch_incomplete "EX" rfl).2 'X' rfl (by decide) (by decide)⟩

/-- C1 counterexample: the one-character reply "E" does not satisfy the
claimed error-report condition (it has no second character), yet `send_cmd`
does not return it unchanged — it raises the IndexError. -/
theorem sendCmd_not_passthrough_on_lone_E :
    ¬ errorReplyCond "E" ∧ send_cmd "E" = .error .indexError := by
  constructor
  · rintro ⟨-, ⟨c1, hc1, -⟩, -⟩
    have hn : "E".data[1]? = none := by decide
    rw [hn] at hc1
    exact Option.noConfusion hc1
  · decide

/-- C1 amended: for every transport reply on which the dispatcher's
accesses are defined (non-empty; a second character when it starts with
'E'; a comma and an integer last field when moreover the second character
is not 'S'), `send_cmd` returns the reply unchanged exactly when the reply
is not an error report in the claimed sense — first character 'E', second
character differing from 'S', and non-zero parsed trailing field. -/
theorem sendCmd_passthrough_iff (ans : String)
    (hwf : dispatchDefined ans = true) :
    send_cmd ans = .ok ans ↔ ¬ errorReplyCond ans := by
  rcases h0 : ans.data[0]? with _ | c0
  · simp [dispatchDefined, h0] at hwf
  · by_cases hc0 : c0 = 'E'
    · subst hc0
      rcases h1 : ans.data[1]? with _ | c1
      · simp [dispatchDefined, h0, h1] at hwf
      · by_cases hc1 : c1 = 'S'
        · subst hc1
          simp [send_cmd, errorReplyCond, h0, h1]
        · rcases hr : rsplitComma1Get1 ans with e | lf
          · simp [dispatchDefined, h0, h1, hc1, hr] at hwf
          · rcases hp : pyInt lf with e | code
            · simp [dispatchDefined, h0, h1, hc1, hr, hp] at hwf
            · by_cases hcode : code = 0
              · subst hcode
                simp [send_cmd, errorReplyCond, h0, h1, hc1, hr, hp]
              · rcases hm : ERROR_CODES code with _ | msg <;>
                  simp [send_cmd, errorReplyCond, h0, h1, hc1, hr, hp,
                    hcode, hm]
    · simp [send_cmd, errorReplyCond, h0, hc0]

/-- C1 witness: reply "E0,0" (error marker, trailing code 0) is
well-formed for the dispatcher and is returned unchanged. -/
theorem sendCmd_passthrough_iff_atE00 :
    dispatchDefined "E0,0" = true ∧
      (send_cmd "E0,0" = .ok "E0,0" ↔ ¬ errorReplyCond "E0,0") :=
  ⟨by decide, sendCmd_passthrough_iff "E0,0" (by decide)⟩

/-- The constructor loop on a list of axis instances, element by element:
position `i` of the result is the input axis at position `i` with its `_id`
set to the running counter and its `_parent` pointing at the controller. -/
theorem assignLoop_getElem? (cid k : Nat) (as : List AxisObj) (i : Nat) :
    (assignLoop cid k (as.map Elem.axis))[i]? =
      (as[i]?).map fun a => assignAxis cid (k + i) a := by
  induction as generalizing k i with
  | nil => simp [assignLoop]
  | cons a rest ih =>
    cases i with
    | zero => simp [assignLoop]
    | succ j =>
      have hk : k + 1 + j = k + (j + 1) := by omega
      simp [assignLoop, ih (k + 1) j, hk]

/-- The constructor loop preserves the length of a list of axis instances. -/
theorem assignLoop_length (cid k : Nat) (as : List AxisObj) :
    (assignLoop cid k (as.map Elem.axis)).length = as.length := by
  induction as generalizing k with
  | nil => rfl
  | cons a rest ih => simp [assignLoop, ih]

/-- The constructor loop preserves the object identities, in order. -/
theorem assignLoop_tags (cid k : Nat) (as : List AxisObj) :
    (assignLoop cid k (as.map Elem.axis)).map AxisObj.tag =
      as.map AxisObj.tag := by
  induction as generalizing k with
  | nil => rfl
  | cons a rest ih => simp [assignLoop, assignAxis, ih]

/-- C4: if any element of the supplied sequence fails the axis capability
check, construction fails with the ConstructionError (the `ValueError`
"Not all elements supplied are valid axis") and no partial state is
observable — the elements are returned exactly as supplied (no `_id`
assigned, no `_parent` set) and no controller carrying an axis list is
produced. -/
theorem init_invalid_element_no_partial_state (cid : Nat) (axes : List Elem)
    (h : ∃ e ∈ axes, isAxisInstance e = false) :
    controller_init_list cid axes =
      (axes, .error (.valueError "Not all elements supplied are valid axis")) := by
  have hall : ¬ (axes.all isAxisInstance = true) := by
    rcases h with ⟨e, he, hf⟩
    intro hs
    rw [List.all_eq_true] at hs
    rw [hs e he] at hf
    exact Bool.noConfusion hf
  simp [controller_init_list, hall]

/-- C4 witness: a two-element sequence whose second element is not an axis
is rejected whole, with both elements untouched. -/
theorem init_invalid_element_no_partial_state_at :
    controller_init_list 3 [Elem.axis ⟨0, none, none⟩, Elem.nonAxis 1] =
      ([Elem.axis ⟨0, none, none⟩, Elem.nonAxis 1],
        .error (.valueError "Not all elements supplied are valid axis")) :=
  init_invalid_element_no_partial_state 3
    [Elem.axis ⟨0, none, none⟩, Elem.nonAxis 1]
    ⟨Elem.nonAxis 1, by decide, rfl⟩

/-- C5: constructing a controller from a valid non-empty sequence of N
axes succeeds; afterwards the i-th stored axis is the i-th input axis (same
object identity) with `_id = i` and its back-reference resolving to the new
controller, and the owned axis list has exactly the N input axes in input
order. -/
theorem init_valid_axes_ids_and_parent (cid : Nat) (as : List AxisObj)
    (_hne : as ≠ []) :
    ∃ c : Controller,
      (controller_init_list cid (as.map Elem.axis)).2 = .ok c ∧
      c.cid = cid ∧
      c.items.length = as.length ∧
      c.items.map AxisObj.tag = as.map AxisObj.tag ∧
      ∀ i : Nat, c.items[i]? =
        (as[i]?).map fun a => { a with attr_id := some i, attr_parent := some cid } := by
  have hall : (as.map Elem.axis).all isAxisInstance = true := by
    rw [List.all_eq_true]
    intro e he
    rcases List.mem_map.mp he with ⟨a, -, rfl⟩
    rfl
  refine ⟨{ cid := cid, items := assignLoop cid 0 (as.map Elem.axis) }, ?_, rfl, ?_, ?_, ?_⟩
  · simp [controller_init_list, hall]
  · exact assignLoop_length cid 0 as
  · exact assignLoop_tags cid 0 as
  · intro i
    have := assignLoop_getElem? cid 0 as i
    simpa [assignAxis] using this

/-- C5 witness: two fresh axes get ids 0 and 1 and back-references to the
controller with identity 7, in input order. -/
theorem init_valid_axes_ids_and_parent_at :
    ∃ c : Controller,
      (controller_init_list 7 ([⟨10, none, none⟩, ⟨11, none, none⟩].map Elem.axis)).2 = .ok c ∧
      c.cid = 7 ∧
      c.items.length = ([⟨10, none, none⟩, ⟨11, none, none⟩] : List AxisObj).length ∧
      c.items.map AxisObj.tag = ([⟨10, none, none⟩, ⟨11, none, none⟩] : List AxisObj).map AxisObj.tag ∧
      ∀ i : Nat, c.items[i]? =
        ((([⟨10, none, none⟩, ⟨11, none, none⟩] : List AxisObj)[i]?).map
          fun a => { a with attr_id := some i, attr_parent := some 7 }) :=
  init_valid_axes_ids_and_parent 7 [⟨10, none, none⟩, ⟨11, none, none⟩] (by decide)

/-- C8: a single axis object not wrapped in a sequence is accepted; the
construction coincides with construction from the one-element sequence
containing it, the axis getting id 0 and a back-reference to the new
controller. -/
theorem init_single_axis_as_singleton (cid : Nat) (a : AxisObj) :
    controller_init_single cid a = controller_init_list cid [Elem.axis a] ∧
    (controller_init_single cid a).2 =
      .ok { cid := cid,
            items := [{ a with attr_id := some 0, attr_parent := some cid }] } := by
  constructor
  · rfl
  · simp [controller_init_single, controller_init_list, listOfSingleAxis,
      assignLoop, assignAxis, isAxisInstance]

/-- C6: an integer trigger index outside [0, 255] makes `trigger_command`
fail with the ValidationError before any command reaches the transport,
while an index inside [0, 255] makes it send exactly the command string
"TC" followed by the decimal rendering of the index plus 1792, returning
none when the reply is accepted. -/
theorem trigger_command_validates_and_sends (tr : String → String)
    (idx : Int) :
    (¬ (0 ≤ idx ∧ idx ≤ 255) →
      trigger_command tr idx =
        ([], .error (.valueError ("Trigger index " ++ toString idx ++
          " out of the accepted range [0, 255]")))) ∧
    ((0 ≤ idx ∧ idx ≤ 255) →
      (trigger_command tr idx).1 = ["TC" ++ toString (idx + 1792)] ∧
      ∀ r, send_cmd (tr ("TC" ++ toString (idx + 1792))) = .ok r →
        (trigger_command tr idx).2 = .ok ()) := by
  constructor
  · intro h
    simp [trigger_command, is_trigger_in_range, h]
  · intro h
    constructor
    · simp [trigger_command, is_trigger_in_range, h, TRIGGER_INDEX_0]
    · intro r hr
      simp [trigger_command, is_trigger_in_range, h, TRIGGER_INDEX_0, hr,
        Except.map]

/-- C6 witness: index 256 is rejected with nothing sent; index 5 sends
exactly "TC1797" and returns none ("K" stands for any non-error reply). -/
theorem trigger_command_validates_and_sends_at :
    trigger_command (fun _ => "K") 256 =
      ([], .error (.valueError
        "Trigger index 256 out of the accepted range [0, 255]")) ∧
    (trigger_command (fun _ => "K") 5).1 = ["TC1797"] ∧
    (trigger_command (fun _ => "K") 5).2 = .ok () := by
  refine ⟨?_, ?_, ?_⟩
  · exact (trigger_command_validates_and_sends (fun _ => "K") 256).1 (by decide)
  · exact ((trigger_command_validates_and_sends (fun _ => "K") 5).2 (by decide)).1
  · exact ((trigger_command_validates_and_sends (fun _ => "K") 5).2
      (by decide)).2 "K" (by decide)

/-- C7: a baud rate outside the accepted discrete RS-232 set makes
`configure_baudrate` fail with the ValidationError and issue no command,
while an accepted rate makes it send "BR" followed by the rate and return
the integer parsed from the reply's characters after the first two. -/
theorem configure_baudrate_validates_and_parses (tr : String → String)
    (rate : Int) :
    (rate ∉ BAUDRATES →
      configure_baudrate tr rate =
        ([], .error (.valueError ("Baudrate " ++ toString rate ++
          " outside the accepted RS-232 set")))) ∧
    (rate ∈ BAUDRATES →
      (configure_baudrate tr rate).1 = ["BR" ++ toString rate] ∧
      ∀ r, send_cmd (tr ("BR" ++ toString rate)) = .ok r →
        (configure_baudrate tr rate).2 = pyInt (pySliceFrom r 2)) := by
  constructor
  · intro h
    simp [configure_baudrate, is_baudrate_in_range, h]
  · intro h
    constructor
    · simp [configure_baudrate, is_baudrate_in_range, h]
    · intro r hr
      simp [configure_baudrate, is_baudrate_in_range, h, hr]

/-- C7 witness: rate 1234 is rejected with nothing sent; rate 9600 sends
exactly "BR9600" and, on reply "BR9600", returns 9600. -/
theorem configure_baudrate_validates_and_parses_at :
    configure_baudrate (fun _ => "BR9600") 1234 =
      ([], .error (.valueError "Baudrate 1234 outside the accepted RS-232 set")) ∧
    (configure_baudrate (fun _ => "BR9600") 9600).1 = ["BR9600"] ∧
    (configure_baudrate (fun _ => "BR9600") 9600).2 = .ok 9600 := by
  refine ⟨?_, ?_, ?_⟩
  · exact (configure_baudrate_validates_and_parses (fun _ => "BR9600") 1234).1
      (by decide)
  · exact ((configure_baudrate_validates_and_parses (fun _ => "BR9600") 9600).2
      (by decide)).1
  · exact ((configure_baudrate_validates_and_parses (fun _ => "BR9600") 9600).2
      (by decide)).2 "BR9600" (by decide)

/-- C9: for every transport reply the dispatcher accepts, `get_version`
returns the reply's characters after the first two, split on commas,
joined with '.', and prefixed with the literal label "Version: ". -/
theorem get_version_joins_fields (tr : String → String) (ans : String)
    (h : send_cmd (tr "GIV") = .ok ans) :
    get_version tr =
      .ok ("Version: " ++
        String.mk (joinWith '.' (splitOnComma (ans.data.drop 2)))) := by
  simp [get_version, h]

/-- C9 witness: transport reply "VV1,2,3" yields "Version: 1.2.3". -/
theorem get_version_joins_fields_atVV123 :
    get_version (fun _ => "VV1,2,3") = .ok "Version: 1.2.3" :=
  get_version_joins_fields (fun _ => "VV1,2,3") "VV1,2,3" (by decide)
